import Mathlib

/-!
Shallow embedding of the codecarbon emissions-tracking core
(src/co2_tracker/co2_tracker.py and src/co2_tracker/viz/data.py).

Numeric magnitudes (watts, seconds, kWh, kg CO2e) are modelled with the
rationals.  Python `None` is modelled with `Option`.  The value types
`Energy`, `Time` and `CO2EmissionsPerKwh` and the predicate
`is_on_private_infra` live in repository modules that are not part of the
source tree given here; they are modelled from the spec as indicated on
each definition.  The `Emissions` calculator is kept abstract (a record of
functions), since the tracker claims only concern which entry point is
selected and how its result flows into the output record.
-/

namespace CodeCarbon

/-- Modelled from the spec: `Time` (co2_tracker/units.py, not under src/)
wraps a non-negative quantity in seconds; `Time.from_seconds` wraps a
wall-clock delta. -/
structure Time where
  seconds : ℚ
deriving DecidableEq, Repr

def Time.from_seconds (s : ℚ) : Time := ⟨s⟩

/-- Modelled from the spec: `Energy` (co2_tracker/units.py, not under src/)
wraps a non-negative quantity in kWh; `Energy.from_energy(kwh=x)` wraps x,
`Energy.from_power_and_time(power, time) = power(W) * duration(s) / 3600 / 1000`
(kWh), and addition sums the underlying magnitudes. -/
structure Energy where
  kwh : ℚ
deriving DecidableEq, Repr

def Energy.from_energy (kwh : ℚ) : Energy := ⟨kwh⟩

def Energy.from_power_and_time (power : ℚ) (time : Time) : Energy :=
  ⟨power * time.seconds / 3600 / 1000⟩

instance : Add Energy := ⟨fun a b => ⟨a.kwh + b.kwh⟩⟩

theorem Energy.add_kwh (a b : Energy) : (a + b).kwh = a.kwh + b.kwh := rfl

/-- Modelled from the spec: `CO2EmissionsPerKwh` (co2_tracker/units.py, not
under src/); `from_g_per_kwh` converts g CO2/kWh to kg CO2/kWh by dividing
by 1000, and `kgs_per_kwh` reads the kg CO2/kWh magnitude back. -/
structure CO2EmissionsPerKwh where
  kgs_per_kwh : ℚ
deriving DecidableEq, Repr

def CO2EmissionsPerKwh.from_g_per_kwh (g : ℚ) : CO2EmissionsPerKwh := ⟨g / 1000⟩

/-- `GeoMetadata` (co2_tracker/external/geography.py, not under src/):
a country ISO code, a country name and an optional region, each of which
may be absent. -/
structure GeoMetadata where
  country_iso_code : Option String
  country_name : Option String
  region : Option String
deriving DecidableEq, Repr

/-- `CloudMetadata` (co2_tracker/external/geography.py, not under src/):
an optional provider and an optional region. -/
structure CloudMetadata where
  provider : Option String
  region : Option String
deriving DecidableEq, Repr

/-- Modelled from the spec: `CloudMetadata.is_on_private_infra`
(co2_tracker/external/geography.py, not under src/) is true iff the
provider is absent. -/
def CloudMetadata.is_on_private_infra (c : CloudMetadata) : Bool :=
  c.provider.isNone

/-- The `Emissions` calculator (co2_tracker/emissions.py, not under src/),
kept abstract: the tracker claims depend only on which entry point is
called, not on the lookup tables behind them. -/
structure Emissions where
  get_private_infra_emissions : Energy → GeoMetadata → ℚ
  get_cloud_emissions : Energy → CloudMetadata → ℚ
  get_cloud_country_name : CloudMetadata → Option String
  get_cloud_country_iso_code : CloudMetadata → Option String
  get_cloud_geo_region : CloudMetadata → Option String

/-- `CO2Data` (co2_tracker/output.py, not under src/): the record assembled
by `BaseCO2Tracker.stop`, with exactly the fields passed at
co2_tracker.py lines 125-138. -/
structure CO2Data where
  timestamp : String
  experiment_id : String
  project_name : String
  duration : ℚ
  emissions : ℚ
  energy_consumed : ℚ
  country_name : Option String
  country_iso_code : Option String
  region : Option String
  on_cloud : String
  cloud_provider : Option String
  cloud_region : Option String
deriving DecidableEq, Repr

/-- The mutable state of a `BaseCO2Tracker` (co2_tracker.py lines 33-70).
Output sinks (`persistence_objs`) are identified by sink ids; the
background scheduler is modelled by the flag `scheduler_started`. -/
structure TrackerState where
  project_name : String
  measure_power_secs : ℚ
  start_time : Option ℚ
  total_energy : Energy
  is_gpu_available : Bool
  scheduler_started : Bool
  persistence_objs : List Nat
deriving DecidableEq, Repr

/-- `BaseCO2Tracker.__init__` (co2_tracker.py lines 33-70): no start time,
zero accumulated energy, gpu availability detected once at construction,
scheduler constructed but not started, and a file sink (id 0) registered
when `save_to_file` is set. -/
def BaseCO2Tracker.init (project_name : String) (measure_power_secs : ℚ)
    (gpu_details_available : Bool) (save_to_file : Bool) : TrackerState :=
  { project_name := project_name
    measure_power_secs := measure_power_secs
    start_time := none
    total_energy := Energy.from_energy 0
    is_gpu_available := gpu_details_available
    scheduler_started := false
    persistence_objs := if save_to_file then [0] else [] }

/-- Outcome of a `start()` call: the two early-return warnings, or a
successful transition to Running. -/
inductive StartOutcome where
  | warnedNoGpu
  | warnedAlreadyStarted
  | started
deriving DecidableEq, Repr

/-- `BaseCO2Tracker.start` (co2_tracker.py lines 72-89): warn and return
unchanged when no GPU is available, warn and return unchanged when already
started, otherwise record the start timestamp and start the scheduler.
`now` stands for `time.time()`. -/
def BaseCO2Tracker.start (s : TrackerState) (now : ℚ) :
    TrackerState × StartOutcome :=
  if s.is_gpu_available = false then
    (s, StartOutcome.warnedNoGpu)
  else
    match s.start_time with
    | some _ => (s, StartOutcome.warnedAlreadyStarted)
    | none =>
      ({ s with start_time := some now, scheduler_started := true },
       StartOutcome.started)

/-- `BaseCO2Tracker._measure_power` (co2_tracker.py lines 159-168): one
firing of the periodic sampling task, adding
`Energy.from_power_and_time(hardware.total_power, measure_power_secs)`
to the accumulated energy.  `power` stands for the value read from
`self._hardware.total_power` at this instant. -/
def BaseCO2Tracker.measure_power (s : TrackerState) (power : ℚ) :
    TrackerState :=
  { s with total_energy := s.total_energy +
      Energy.from_power_and_time power (Time.from_seconds s.measure_power_secs) }

/-- `n` consecutive firings of the sampling task at constant reported
power. -/
def BaseCO2Tracker.measure_power_iter (s : TrackerState) (power : ℚ) :
    Nat → TrackerState
  | 0 => s
  | n + 1 => BaseCO2Tracker.measure_power
      (BaseCO2Tracker.measure_power_iter s power n) power

/-- Environment of a `stop()` call: the current wall clock, the values
returned by the metadata resolvers `_get_cloud_metadata` and
`_get_geo_metadata`, the emissions calculator, and the timestamp and uuid
drawn when assembling the record. -/
structure StopEnv where
  now : ℚ
  cloud : CloudMetadata
  geo : GeoMetadata
  em : Emissions
  timestamp : String
  experiment_id : String

/-- Observable effects of a `stop()` call, in the order they are
performed. -/
inductive Event where
  | schedulerShutdown
  | readEnergy (kwh : ℚ)
  | assembleRecord (d : CO2Data)
  | output (sink : Nat) (d : CO2Data)
deriving DecidableEq, Repr

def Event.isAssembleRecord : Event → Bool
  | Event.assembleRecord _ => true
  | _ => false

/-- `BaseCO2Tracker.stop` (co2_tracker.py lines 91-143).  Returns the
value returned to the caller (`None` when never started), the assembled
record if any, and the trace of effects: the scheduler shutdown (line
100), the read of the accumulated energy `self._total_energy` (first read
at line 107/117), the assembly of the `CO2Data` record (lines 125-138) and
one `out` call per registered sink (lines 140-141). -/
def BaseCO2Tracker.stop (s : TrackerState) (env : StopEnv) :
    Option ℚ × Option CO2Data × List Event :=
  match s.start_time with
  | none => (none, none, [])
  | some st =>
    let cloud := env.cloud
    let geo := env.geo
    let duration := Time.from_seconds (env.now - st)
    let parts :=
      if cloud.is_on_private_infra then
        (env.em.get_private_infra_emissions s.total_energy geo,
         geo.country_name, geo.country_iso_code, geo.region,
         "N", some "", some "")
      else
        (env.em.get_cloud_emissions s.total_energy cloud,
         env.em.get_cloud_country_name cloud,
         env.em.get_cloud_country_iso_code cloud,
         env.em.get_cloud_geo_region cloud,
         "Y", cloud.provider, cloud.region)
    let data : CO2Data :=
      { timestamp := env.timestamp
        experiment_id := env.experiment_id
        project_name := s.project_name
        duration := duration.seconds
        emissions := parts.1
        energy_consumed := s.total_energy.kwh
        country_name := parts.2.1
        country_iso_code := parts.2.2.1
        region := parts.2.2.2.1
        on_cloud := parts.2.2.2.2.1
        cloud_provider := parts.2.2.2.2.2.1
        cloud_region := parts.2.2.2.2.2.2 }
    (some parts.1, some data,
     Event.schedulerShutdown ::
       Event.readEnergy s.total_energy.kwh ::
       Event.assembleRecord data ::
       s.persistence_objs.map (fun p => Event.output p data))

/-- The geographic fields stored by `OfflineCO2Tracker.__init__`
(co2_tracker.py lines 177-195). -/
structure OfflineFields where
  country_iso_code : String
  country_name : String
  region : Option String
deriving DecidableEq, Repr

/-- `OfflineCO2Tracker.__init__` (co2_tracker.py lines 177-195): when
`country_iso_code` is None it is silently replaced by "CAN", when
`country_name` is None it is silently replaced by "Canada"; construction
always succeeds. -/
def OfflineCO2Tracker.initFields (country_iso_code country_name : Option String)
    (region : Option String) : OfflineFields :=
  { country_iso_code := match country_iso_code with
      | none => "CAN"
      | some c => c
    country_name := match country_name with
      | none => "Canada"
      | some c => c
    region := region }

/-- `OfflineCO2Tracker._get_geo_metadata` (co2_tracker.py lines 197-202). -/
def OfflineCO2Tracker.get_geo_metadata (f : OfflineFields) : GeoMetadata :=
  { country_iso_code := some f.country_iso_code
    country_name := some f.country_name
    region := f.region }

/-- `OfflineCO2Tracker._get_cloud_metadata` (co2_tracker.py lines
204-205). -/
def OfflineCO2Tracker.get_cloud_metadata : CloudMetadata :=
  { provider := none, region := none }

/-- The observable steps of a call to a `track_co2`-wrapped function.
`callFn` carries the value computed by `fn(*args, **kwargs)`. -/
inductive Action (β : Type) where
  | constructOffline (project_name output_dir : String)
      (country_iso_code country_name region : Option String)
  | constructOnline (project_name output_dir : String)
  | trackerStart
  | callFn (v : β)
  | trackerStop
deriving DecidableEq, Repr

/-- `track_co2._decorate.wrapped_fn` (co2_tracker.py lines 245-267):
invoking the decorated function.  In offline mode a missing
`country_iso_code` raises before any tracker is constructed; otherwise the
corresponding tracker is constructed, `start()` runs, `fn` is called on
the arguments, `stop()` runs, and the wrapper falls off the end returning
Python None (modelled as `Option.none`). -/
def track_co2_wrapped {α β : Type} (offline : Bool)
    (project_name output_dir : String)
    (country_iso_code country_name region : Option String)
    (fn : α → β) (args : α) :
    Except String (Option β × List (Action β)) :=
  if offline then
    match country_iso_code with
    | none => Except.error "Needs ISO Code of the Country for Offline mode"
    | some code =>
      Except.ok (none,
        [Action.constructOffline project_name output_dir (some code)
           country_name region,
         Action.trackerStart, Action.callFn (fn args), Action.trackerStop])
  else
    Except.ok (none,
      [Action.constructOnline project_name output_dir,
       Action.trackerStart, Action.callFn (fn args), Action.trackerStop])

/-- Modelled from the spec: the explicit start/stop contract the decorator
is claimed to be expressible as — construct the corresponding tracker
(`OfflineCO2Tracker` when offline, `CO2Tracker` otherwise), then execute
`start()`, `fn(arguments)`, `stop()` in that order.  Constructing
`OfflineCO2Tracker` forwards the possibly-absent identifiers to its
constructor, which always succeeds (co2_tracker.py lines 191-193). -/
def explicit_start_stop_contract {α β : Type} (offline : Bool)
    (project_name output_dir : String)
    (country_iso_code country_name region : Option String)
    (fn : α → β) (args : α) :
    Except String (Option β × List (Action β)) :=
  if offline then
    Except.ok (none,
      [Action.constructOffline project_name output_dir country_iso_code
         country_name region,
       Action.trackerStart, Action.callFn (fn args), Action.trackerStop])
  else
    Except.ok (none,
      [Action.constructOnline project_name output_dir,
       Action.trackerStart, Action.callFn (fn args), Action.trackerStop])

/-- One row of the cloud emissions table used by
`Data.get_cloud_emissions_barchart_data` (viz/data.py lines 190-193). -/
structure CloudRow where
  provider : String
  providerName : String
  region : String
  impact : ℚ
  countryName : String
deriving DecidableEq, Repr

/-- The `emissions` column assignment of
`Data.get_cloud_emissions_barchart_data` (viz/data.py lines 195-201):
for each row of the cloud emissions table, pair it with
`CO2EmissionsPerKwh.from_g_per_kwh(row.impact).kgs_per_kwh *
net_energy_consumed`. -/
def get_cloud_emissions_barchart_emissions_column
    (net_energy_consumed : ℚ) (cloud_emissions : List CloudRow) :
    List (CloudRow × ℚ) :=
  cloud_emissions.map (fun row =>
    (row, (CO2EmissionsPerKwh.from_g_per_kwh row.impact).kgs_per_kwh *
      net_energy_consumed))

/-- A concrete emissions calculator used to instantiate theorems with
hypotheses. -/
def emFixture : Emissions :=
  { get_private_infra_emissions := fun e _ => e.kwh * 2
    get_cloud_emissions := fun e _ => e.kwh * 3
    get_cloud_country_name := fun _ => some "United States"
    get_cloud_country_iso_code := fun _ => some "USA"
    get_cloud_geo_region := fun _ => some "us-east-1" }

/-- A concrete stop environment whose cloud metadata has no provider
(private infrastructure). -/
def envPrivateFixture : StopEnv :=
  { now := 20
    cloud := { provider := none, region := none }
    geo := { country_iso_code := some "USA"
             country_name := some "United States"
             region := some "california" }
    em := emFixture
    timestamp := "2020-01-01T00:00:00"
    experiment_id := "run-1" }

/-- A concrete tracker state on which start() has already run. -/
def startedFixture : TrackerState :=
  { project_name := "default"
    measure_power_secs := 15
    start_time := some 5
    total_energy := Energy.from_energy 7
    is_gpu_available := true
    scheduler_started := true
    persistence_objs := [0] }

theorem measure_power_iter_measure_power_secs (s : TrackerState) (P : ℚ)
    (n : ℕ) :
    (BaseCO2Tracker.measure_power_iter s P n).measure_power_secs =
      s.measure_power_secs := by
  induction n with
  | zero => rfl
  | succ n ih =>
    simpa [BaseCO2Tracker.measure_power_iter, BaseCO2Tracker.measure_power]
      using ih

/-- Claim C1: each firing of the periodic sampling task adds exactly
`Energy.from_power_and_time(total_power, measure_power_secs)` to the
accumulated energy; starting from zero, after n firings at constant
reported power P watts the accumulated energy equals
n * P * measure_power_secs / 3600000 kWh. -/
theorem claim_c1_sampling_accumulation :
    (∀ (s : TrackerState) (P : ℚ),
      (BaseCO2Tracker.measure_power s P).total_energy =
        s.total_energy +
          Energy.from_power_and_time P
            (Time.from_seconds s.measure_power_secs)) ∧
    (∀ (s : TrackerState) (P : ℚ) (n : ℕ),
      s.total_energy.kwh = 0 →
      (BaseCO2Tracker.measure_power_iter s P n).total_energy.kwh =
        n * P * s.measure_power_secs / 3600000) := by
  constructor
  · intro s P
    rfl
  · intro s P n h
    induction n with
    | zero =>
      simpa [BaseCO2Tracker.measure_power_iter] using h
    | succ n ih =>
      have hs := measure_power_iter_measure_power_secs s P n
      simp only [BaseCO2Tracker.measure_power_iter, BaseCO2Tracker.measure_power,
        Energy.add_kwh, Energy.from_power_and_time, Time.from_seconds] at ih ⊢
      rw [hs, ih]
      push_cast
      ring

/-- Witness for claim C1: 5 firings at 100 W with a 15 s interval,
starting from a freshly constructed tracker, accumulate
5 * 100 * 15 / 3600000 kWh. -/
theorem claim_c1_sampling_accumulation_witness :
    (BaseCO2Tracker.measure_power_iter
        (BaseCO2Tracker.init "default" 15 true true) 100 5).total_energy.kwh =
      5 * 100 * 15 / 3600000 := by
  have h := claim_c1_sampling_accumulation.2
    (BaseCO2Tracker.init "default" 15 true true) 100 5 rfl
  simpa [BaseCO2Tracker.init] using h

/-- The record stop() assembles on a started tracker when the cloud
metadata is on private infrastructure. -/
def stopRecordPrivate (s : TrackerState) (env : StopEnv) (st : ℚ) : CO2Data :=
  { timestamp := env.timestamp
    experiment_id := env.experiment_id
    project_name := s.project_name
    duration := env.now - st
    emissions := env.em.get_private_infra_emissions s.total_energy env.geo
    energy_consumed := s.total_energy.kwh
    country_name := env.geo.country_name
    country_iso_code := env.geo.country_iso_code
    region := env.geo.region
    on_cloud := "N"
    cloud_provider := some ""
    cloud_region := some "" }

/-- The record stop() assembles on a started tracker when the cloud
metadata carries a provider. -/
def stopRecordCloud (s : TrackerState) (env : StopEnv) (st : ℚ) : CO2Data :=
  { timestamp := env.timestamp
    experiment_id := env.experiment_id
    project_name := s.project_name
    duration := env.now - st
    emissions := env.em.get_cloud_emissions s.total_energy env.cloud
    energy_consumed := s.total_energy.kwh
    country_name := env.em.get_cloud_country_name env.cloud
    country_iso_code := env.em.get_cloud_country_iso_code env.cloud
    region := env.em.get_cloud_geo_region env.cloud
    on_cloud := "Y"
    cloud_provider := env.cloud.provider
    cloud_region := env.cloud.region }

theorem stop_eq_private (s : TrackerState) (env : StopEnv) (st : ℚ)
    (h : s.start_time = some st)
    (hc : env.cloud.is_on_private_infra = true) :
    BaseCO2Tracker.stop s env =
      (some (env.em.get_private_infra_emissions s.total_energy env.geo),
       some (stopRecordPrivate s env st),
       Event.schedulerShutdown ::
         Event.readEnergy s.total_energy.kwh ::
         Event.assembleRecord (stopRecordPrivate s env st) ::
         s.persistence_objs.map
           (fun p => Event.output p (stopRecordPrivate s env st))) := by
  unfold BaseCO2Tracker.stop stopRecordPrivate
  rw [h]
  simp [hc, Time.from_seconds]

theorem stop_eq_cloud (s : TrackerState) (env : StopEnv) (st : ℚ)
    (h : s.start_time = some st)
    (hc : env.cloud.is_on_private_infra = false) :
    BaseCO2Tracker.stop s env =
      (some (env.em.get_cloud_emissions s.total_energy env.cloud),
       some (stopRecordCloud s env st),
       Event.schedulerShutdown ::
         Event.readEnergy s.total_energy.kwh ::
         Event.assembleRecord (stopRecordCloud s env st) ::
         s.persistence_objs.map
           (fun p => Event.output p (stopRecordCloud s env st))) := by
  unfold BaseCO2Tracker.stop stopRecordCloud
  rw [h]
  simp [hc, Time.from_seconds]

theorem filter_assemble_map_output (d : CO2Data) (l : List Nat) :
    (l.map (fun p => Event.output p d)).filter Event.isAssembleRecord = [] := by
  induction l with
  | nil => rfl
  | cons a l ih => simp [List.filter, Event.isAssembleRecord, ih]

/-- Claim C2: when stop() runs on a started tracker and the cloud
metadata satisfies is_on_private_infra, the returned emissions come from
get_private_infra_emissions applied to the accumulated energy and the geo
metadata, the country/region fields come from the geo metadata, on_cloud
is "N" and cloud_provider/cloud_region are empty strings; otherwise the
emissions come from get_cloud_emissions, the country/region fields come
from get_cloud_country_name / get_cloud_country_iso_code /
get_cloud_geo_region, on_cloud is "Y" and cloud_provider/cloud_region are
taken from the cloud metadata. -/
theorem claim_c2_stop_branch (s : TrackerState) (env : StopEnv) (st : ℚ)
    (h : s.start_time = some st) :
    ∃ d, (BaseCO2Tracker.stop s env).2.1 = some d ∧
      (env.cloud.is_on_private_infra = true →
        (BaseCO2Tracker.stop s env).1 =
          some (env.em.get_private_infra_emissions s.total_energy env.geo) ∧
        d.emissions = env.em.get_private_infra_emissions s.total_energy env.geo ∧
        d.country_name = env.geo.country_name ∧
        d.country_iso_code = env.geo.country_iso_code ∧
        d.region = env.geo.region ∧
        d.on_cloud = "N" ∧
        d.cloud_provider = some "" ∧
        d.cloud_region = some "") ∧
      (env.cloud.is_on_private_infra = false →
        (BaseCO2Tracker.stop s env).1 =
          some (env.em.get_cloud_emissions s.total_energy env.cloud) ∧
        d.emissions = env.em.get_cloud_emissions s.total_energy env.cloud ∧
        d.country_name = env.em.get_cloud_country_name env.cloud ∧
        d.country_iso_code = env.em.get_cloud_country_iso_code env.cloud ∧
        d.region = env.em.get_cloud_geo_region env.cloud ∧
        d.on_cloud = "Y" ∧
        d.cloud_provider = env.cloud.provider ∧
        d.cloud_region = env.cloud.region) := by
  cases hc : env.cloud.is_on_private_infra with
  | true =>
    refine ⟨stopRecordPrivate s env st, ?_, fun _ => ?_, fun hf => ?_⟩
    · rw [stop_eq_private s env st h hc]
    · rw [stop_eq_private s env st h hc]
      exact ⟨rfl, rfl, rfl, rfl, rfl, rfl, rfl, rfl⟩
    · exact absurd hf (by simp)
  | false =>
    refine ⟨stopRecordCloud s env st, ?_, fun ht => ?_, fun _ => ?_⟩
    · rw [stop_eq_cloud s env st h hc]
    · exact absurd ht (by simp)
    · rw [stop_eq_cloud s env st h hc]
      exact ⟨rfl, rfl, rfl, rfl, rfl, rfl, rfl, rfl⟩

/-- Witness for claim C2: on a started tracker with private-infra cloud
metadata, the returned emissions are those of
get_private_infra_emissions on the accumulated energy. -/
theorem claim_c2_stop_branch_witness :
    (BaseCO2Tracker.stop startedFixture envPrivateFixture).1 =
      some (envPrivateFixture.em.get_private_infra_emissions
        startedFixture.total_energy envPrivateFixture.geo) := by
  obtain ⟨d, hd, hpriv, hcloud⟩ :=
    claim_c2_stop_branch startedFixture envPrivateFixture 5 rfl
  exact (hpriv rfl).1

/-- Claim C3: for every stop() on a started tracker, the scheduler is
shut down before the final accumulated-energy value is read, exactly one
record is assembled, the record is forwarded to every registered output
sink, and the computed emissions value is returned. -/
theorem claim_c3_stop_trace (s : TrackerState) (env : StopEnv) (st : ℚ)
    (h : s.start_time = some st) :
    ∃ d, (BaseCO2Tracker.stop s env).2.1 = some d ∧
      (BaseCO2Tracker.stop s env).2.2 =
        Event.schedulerShutdown ::
          Event.readEnergy s.total_energy.kwh ::
          Event.assembleRecord d ::
          s.persistence_objs.map (fun p => Event.output p d) ∧
      (∃ i j : ℕ, i < j ∧
        (BaseCO2Tracker.stop s env).2.2[i]? = some Event.schedulerShutdown ∧
        (BaseCO2Tracker.stop s env).2.2[j]? =
          some (Event.readEnergy s.total_energy.kwh)) ∧
      ((BaseCO2Tracker.stop s env).2.2.filter Event.isAssembleRecord) =
        [Event.assembleRecord d] ∧
      (∀ p ∈ s.persistence_objs,
        Event.output p d ∈ (BaseCO2Tracker.stop s env).2.2) ∧
      (BaseCO2Tracker.stop s env).1 = some d.emissions := by
  cases hc : env.cloud.is_on_private_infra with
  | true =>
    rw [stop_eq_private s env st h hc]
    refine ⟨stopRecordPrivate s env st, rfl, rfl,
      ⟨0, 1, Nat.zero_lt_one, rfl, rfl⟩, ?_, ?_, rfl⟩
    · simp [List.filter, Event.isAssembleRecord,
        filter_assemble_map_output]
    · intro p hp
      exact List.mem_cons_of_mem _ (List.mem_cons_of_mem _
        (List.mem_cons_of_mem _ (List.mem_map_of_mem _ hp)))
  | false =>
    rw [stop_eq_cloud s env st h hc]
    refine ⟨stopRecordCloud s env st, rfl, rfl,
      ⟨0, 1, Nat.zero_lt_one, rfl, rfl⟩, ?_, ?_, rfl⟩
    · simp [List.filter, Event.isAssembleRecord,
        filter_assemble_map_output]
    · intro p hp
      exact List.mem_cons_of_mem _ (List.mem_cons_of_mem _
        (List.mem_cons_of_mem _ (List.mem_map_of_mem _ hp)))

/-- Witness for claim C3: on a concrete started tracker the returned
value is the assembled record's emissions field. -/
theorem claim_c3_stop_trace_witness :
    ∃ d, (BaseCO2Tracker.stop startedFixture envPrivateFixture).2.1 = some d ∧
      (BaseCO2Tracker.stop startedFixture envPrivateFixture).1 =
        some d.emissions := by
  obtain ⟨d, hd, _, _, _, _, hret⟩ :=
    claim_c3_stop_trace startedFixture envPrivateFixture 5 rfl
  exact ⟨d, hd, hret⟩

/-- Claim C4, evaluated at the failing input: constructing an offline
tracker with both geographic identifiers missing does not fail; it
silently substitutes the defaults "CAN" and "Canada" for the geo fields,
and the geo metadata of the run carries those defaults. -/
theorem claim_c4_offline_defaults_eval :
    OfflineCO2Tracker.initFields none none none =
      { country_iso_code := "CAN", country_name := "Canada", region := none } ∧
    OfflineCO2Tracker.get_geo_metadata (OfflineCO2Tracker.initFields none none none) =
      { country_iso_code := some "CAN", country_name := some "Canada",
        region := none } := ⟨rfl, rfl⟩

theorem stop_eq_none_of_not_started (s : TrackerState) (env : StopEnv)
    (h : s.start_time = none) :
    BaseCO2Tracker.stop s env = (none, none, []) := by
  unfold BaseCO2Tracker.stop
  rw [h]

/-- Claim C5: on a tracker that was never successfully started
(start_time is absent), stop() returns the None sentinel, assembles no
record and performs no effect — in particular nothing is written to any
output sink. -/
theorem claim_c5_stop_before_start (s : TrackerState) (env : StopEnv)
    (h : s.start_time = none) :
    BaseCO2Tracker.stop s env = (none, none, []) :=
  stop_eq_none_of_not_started s env h

/-- Witness for claim C5: stop() on a freshly constructed tracker. -/
theorem claim_c5_stop_before_start_witness :
    BaseCO2Tracker.stop (BaseCO2Tracker.init "default" 15 true true)
      envPrivateFixture = (none, none, []) :=
  claim_c5_stop_before_start (BaseCO2Tracker.init "default" 15 true true)
    envPrivateFixture rfl

/-- Claim C6: on a tracker constructed with no power-metering capability,
start() reports the warning and leaves the tracker Idle — no start
timestamp is set and the scheduler is not started — and a subsequent
stop() returns the None sentinel without assembling a record or writing
to any sink. -/
theorem claim_c6_no_gpu (project_name : String) (mps : ℚ)
    (save_to_file : Bool) (now : ℚ) (env : StopEnv) :
    BaseCO2Tracker.start
        (BaseCO2Tracker.init project_name mps false save_to_file) now =
      (BaseCO2Tracker.init project_name mps false save_to_file,
       StartOutcome.warnedNoGpu) ∧
    (BaseCO2Tracker.start
        (BaseCO2Tracker.init project_name mps false save_to_file) now).1.start_time
      = none ∧
    (BaseCO2Tracker.start
        (BaseCO2Tracker.init project_name mps false save_to_file) now).1.scheduler_started
      = false ∧
    BaseCO2Tracker.stop
        (BaseCO2Tracker.start
          (BaseCO2Tracker.init project_name mps false save_to_file) now).1 env
      = (none, none, []) := by
  refine ⟨rfl, rfl, rfl, ?_⟩
  exact stop_eq_none_of_not_started _ _ rfl

/-- Claim C7: calling start() on an already-started tracker (with a
power-metering capability) reports the already-started warning and
returns the state completely unchanged — same start timestamp, same
accumulated energy, same scheduler. -/
theorem claim_c7_double_start (s : TrackerState) (t now : ℚ)
    (hgpu : s.is_gpu_available = true) (h : s.start_time = some t) :
    BaseCO2Tracker.start s now = (s, StartOutcome.warnedAlreadyStarted) := by
  unfold BaseCO2Tracker.start
  rw [hgpu, h]
  simp

/-- Witness for claim C7: a second start() on a concrete started tracker
leaves it unchanged. -/
theorem claim_c7_double_start_witness :
    BaseCO2Tracker.start startedFixture 9 =
      (startedFixture, StartOutcome.warnedAlreadyStarted) :=
  claim_c7_double_start startedFixture 5 9 rfl rfl

/-- Counterexample to claim C8: with offline=True and
country_iso_code=None, invoking the decorated function raises before
constructing any tracker, whereas constructing the corresponding
OfflineCO2Tracker and running start/fn/stop would succeed (the
constructor silently substitutes "CAN"), so the two behaviours differ. -/
theorem claim_c8_counterexample :
    track_co2_wrapped (α := ℕ) (β := ℕ) true "default" "." none none none
        (fun n => n + 1) 0 ≠
      explicit_start_stop_contract (α := ℕ) (β := ℕ) true "default" "."
        none none none (fun n => n + 1) 0 := by
  intro hcontra
  simp [track_co2_wrapped, explicit_start_stop_contract] at hcontra

/-- Claim C8 as amended: whenever the decorated call does not hit the
offline-mode missing-ISO-code guard (offline is false, or a
country_iso_code is supplied), invoking the track_co2-decorated function
behaves exactly as constructing the corresponding tracker and executing
start(), fn(arguments), stop() in that order. -/
theorem claim_c8_decorator_refines_start_stop {α β : Type} (offline : Bool)
    (project_name output_dir : String)
    (country_iso_code country_name region : Option String)
    (fn : α → β) (args : α)
    (h : offline = false ∨ country_iso_code ≠ none) :
    track_co2_wrapped offline project_name output_dir country_iso_code
        country_name region fn args =
      explicit_start_stop_contract offline project_name output_dir
        country_iso_code country_name region fn args := by
  cases offline with
  | false => rfl
  | true =>
    rcases h with h | h
    · exact absurd h (by simp)
    · cases country_iso_code with
      | none => exact absurd rfl h
      | some code => rfl

/-- Witness for the amended claim C8: an offline decorated call with a
supplied ISO code performs exactly the construct/start/call/stop
sequence. -/
theorem claim_c8_decorator_refines_start_stop_witness :
    track_co2_wrapped (α := ℕ) (β := ℕ) true "proj" "." (some "USA")
        (some "United States") none (fun n => n + 1) 0 =
      explicit_start_stop_contract true "proj" "." (some "USA")
        (some "United States") none (fun n => n + 1) 0 :=
  claim_c8_decorator_refines_start_stop true "proj" "." (some "USA")
    (some "United States") none (fun n => n + 1) 0 (Or.inr (by simp))

/-- Claim C9: for every row of the cloud emissions table, the emissions
value computed by get_cloud_emissions_barchart_data equals the row's
impact factor (g CO2/kWh) divided by 1000 (kg CO2/kWh) times
net_energy_consumed, with no rounding applied. -/
theorem claim_c9_barchart_emissions_column (net_energy_consumed : ℚ)
    (cloud_emissions : List CloudRow) (row : CloudRow) (e : ℚ)
    (h : (row, e) ∈ get_cloud_emissions_barchart_emissions_column
      net_energy_consumed cloud_emissions) :
    e = row.impact / 1000 * net_energy_consumed := by
  simp only [get_cloud_emissions_barchart_emissions_column, List.mem_map] at h
  obtain ⟨r, hr, hpair⟩ := h
  injection hpair with h1 h2
  subst h1
  rw [← h2]
  simp [CO2EmissionsPerKwh.from_g_per_kwh]

/-- A concrete row of the cloud emissions table. -/
def rowFixture : CloudRow :=
  { provider := "aws"
    providerName := "AWS"
    region := "us-east-1"
    impact := 500
    countryName := "United States" }

/-- Witness for claim C9: on a one-row table with impact 500 g CO2/kWh
and 10 kWh consumed, the computed emissions equal 500 / 1000 * 10 kg. -/
theorem claim_c9_barchart_emissions_column_witness :
    (CO2EmissionsPerKwh.from_g_per_kwh rowFixture.impact).kgs_per_kwh * 10 =
      rowFixture.impact / 1000 * 10 :=
  claim_c9_barchart_emissions_column 10 [rowFixture] rowFixture _
    (by simp [get_cloud_emissions_barchart_emissions_column])

/-- Claim C10: whenever a track_co2-decorated function returns (does not
raise), the value handed back to the caller is Python None — fn's result
is discarded and the computed emissions are not returned either. -/
theorem claim_c10_wrapper_returns_none {α β : Type} (offline : Bool)
    (project_name output_dir : String)
    (country_iso_code country_name region : Option String)
    (fn : α → β) (args : α) (r : Option β) (tr : List (Action β))
    (h : track_co2_wrapped offline project_name output_dir country_iso_code
      country_name region fn args = Except.ok (r, tr)) :
    r = none := by
  unfold track_co2_wrapped at h
  cases offline with
  | false =>
    simp at h
    exact h.1.symm
  | true =>
    cases country_iso_code with
    | none => simp at h
    | some code =>
      simp at h
      exact h.1.symm

/-- Witness for claim C10: a concrete decorated call returns None, not
fn's result. -/
theorem claim_c10_wrapper_returns_none_witness :
    track_co2_wrapped (β := ℕ) false "proj" "." none none none
        (fun n : ℕ => n + 1) 0 =
      Except.ok (none,
        [Action.constructOnline "proj" ".", Action.trackerStart,
         Action.callFn 1, Action.trackerStop]) ∧
    (none : Option ℕ) = none :=
  ⟨rfl, claim_c10_wrapper_returns_none false "proj" "." none none none
    (fun n : ℕ => n + 1) 0 none _ rfl⟩

end CodeCarbon
